import Mathlib

/-!
Verification development for a tree-walking interpreter (a Rust "Monkey"
interpreter: lexer, Pratt parser, evaluator with environments).

The definitions below are a shallow embedding of the Rust sources
(`src/token.rs`, `src/ast.rs`, `src/parser.rs`, `src/object.rs`,
`src/env.rs`, `src/eval.rs`):

* Rust `isize` is modelled as `Int` (the programs under study never
  overflow; overflow is out of scope of the statements proved here).
* `&mut` state is modelled by explicit state passing: parser functions
  take and return a `Parser` record, evaluator functions take and return
  an environment.
* A host `panic!`/`unwrap` failure (Rust aborts) is modelled as the
  `Except` error `PErr.panicked`.  Integer division by zero panics in
  Rust, so the embedded evaluator maps a zero divisor to `PErr.panicked`.
* Recursion in the parser and evaluator is modelled with an explicit
  fuel parameter; running out of fuel is the distinct error
  `PErr.fuelOut`, never confused with a genuine panic.
* The lexer is an external collaborator (it is consumed only through a
  `next_token` pull interface); concrete example programs are therefore
  given directly as their token streams, and the token stream is modelled
  as a `List Token` that yields `Eof` tokens forever once exhausted,
  exactly as the lexer does at end of input.
* `HashMap<String, Object>` (the environment) is modelled as an
  association list whose lookup sees the most recent insertion, which is
  extensionally the behaviour of `HashMap::insert`/`get`.
-/

/-- Token kinds, from `token::Type` (as actually used by the lexer and
parser: `Illegal, Eof, Ident, Int, Assign, Plus, Minus, Bang, Asterisk,
Slash, Lt, Gt, Equ, Neq, Comma, Semicolon, Lparen, Rparen, Lbrace,
Rbrace, Function, Let, True, False, If, Else, Return`).  Rust keywords
that clash with Lean keywords get a `T` suffix. -/
inductive TokType where
  | illegal
  | eof
  | ident
  | int
  | assign
  | plus
  | minus
  | bang
  | asterisk
  | slash
  | lt
  | gt
  | equ
  | neq
  | comma
  | semicolon
  | lparen
  | rparen
  | lbrace
  | rbrace
  | function
  | letT
  | trueT
  | falseT
  | ifT
  | elseT
  | returnT
  deriving DecidableEq, Repr

/-- Debug rendering of a token kind, as Rust `{:?}` prints the derived
`Debug` of `token::Type` (the variant name).  Used in parser
diagnostics. -/
def TokType.debugStr : TokType → String
  | .illegal => "Illegal"
  | .eof => "Eof"
  | .ident => "Ident"
  | .int => "Int"
  | .assign => "Assign"
  | .plus => "Plus"
  | .minus => "Minus"
  | .bang => "Bang"
  | .asterisk => "Asterisk"
  | .slash => "Slash"
  | .lt => "Lt"
  | .gt => "Gt"
  | .equ => "Equ"
  | .neq => "Neq"
  | .comma => "Comma"
  | .semicolon => "Semicolon"
  | .lparen => "Lparen"
  | .rparen => "Rparen"
  | .lbrace => "Lbrace"
  | .rbrace => "Rbrace"
  | .function => "Function"
  | .letT => "Let"
  | .trueT => "True"
  | .falseT => "False"
  | .ifT => "If"
  | .elseT => "Else"
  | .returnT => "Return"

/-- `token::Token`: a kind together with its literal text. -/
structure Token where
  t : TokType
  literal : String
  deriving DecidableEq, Repr

/-- The `Eof` token the lexer produces at (and forever after) end of
input: `new_token(token::Type::Eof, "")`. -/
def eofToken : Token := { t := .eof, literal := "" }

/-- `ast::Ident`: an identifier node (token plus its name). -/
structure Ident where
  token : Token
  val : String
  deriving DecidableEq, Repr

mutual

/-- `ast::Expr` with the per-variant structs (`ast::Int`, `ast::Prefix`,
`ast::Infix`, `ast::Boolean`, `ast::If`, `ast::Func`, `ast::Call`)
flattened into the constructors.  `pre`/`inf` are `ast::Prefix` /
`ast::Infix` (those Rust names are kept in doc text only). -/
inductive Expr where
  | ident (i : Ident)
  | int (token : Token) (val : Int)
  | pre (token : Token) (op : String) (rhs : Expr)
  | inf (token : Token) (lhs : Expr) (op : String) (rhs : Expr)
  | boolean (token : Token) (val : Bool)
  | ifE (token : Token) (cond : Expr) (cons : Block) (alt : Option Block)
  | func (token : Token) (params : List Ident) (body : Block)
  | call (token : Token) (fn : Expr) (args : List Expr)

/-- `ast::Block`: a brace-delimited statement list. -/
inductive Block where
  | mk (token : Token) (stmts : List Stmt)

/-- `ast::Stmt` with `ast::Let`, `ast::Return`, `ast::ExprStmt`
flattened into the constructors. -/
inductive Stmt where
  | letS (token : Token) (name : Ident) (val : Expr)
  | ret (token : Token) (val : Expr)
  | exprStmt (token : Token) (expr : Expr)
  | block (b : Block)

end

/-- The statements of a block. -/
def Block.stmts : Block → List Stmt
  | .mk _ s => s

/-- `ast::Program`: the ordered statements produced by the parser. -/
structure Program where
  stmts : List Stmt

/-- Host-failure model: `panicked` is a Rust `panic!`/`unwrap` abort;
`fuelOut` reports exhaustion of the explicit recursion fuel (never a
behaviour of the program itself). -/
inductive PErr where
  | panicked
  | fuelOut
  deriving DecidableEq, Repr

/-- `parser::Precedence` (derived `PartialOrd`, so ordered by declaration
order).  The source variant `Prefix` is called `pref` here. -/
inductive Precedence where
  | lowest
  | equals
  | lt
  | add
  | mul
  | pref
  | call
  deriving DecidableEq, Repr

/-- Discriminant of a `Precedence`, in declaration order. -/
def Precedence.toNat : Precedence → Nat
  | .lowest => 0
  | .equals => 1
  | .lt => 2
  | .add => 3
  | .mul => 4
  | .pref => 5
  | .call => 6

/-- The `<` of the derived `PartialOrd` on `parser::Precedence`:
comparison of declaration-order discriminants. -/
def precLt (a b : Precedence) : Bool := a.toNat < b.toNat

/-- `parser::to_precedence`. -/
def to_precedence (t : TokType) : Precedence :=
  match t with
  | .equ | .neq => .equals
  | .lt | .gt => .lt
  | .plus | .minus => .add
  | .slash | .asterisk => .mul
  | .lparen => .call
  | _ => .lowest

/-- Model of Rust `str::parse::<isize>()`: an optional single `+`/`-`
sign followed by one or more decimal digits; anything else is `none`
(Rust `Err`).  Overflow is not modelled (the integer is unbounded);
no statement below depends on literals near `isize` bounds. -/
def parse_isize (s : String) : Option Int :=
  let digits : List Char → Option Nat := fun cs =>
    cs.foldl
      (fun acc c =>
        match acc with
        | none => none
        | some n => if c.isDigit then some (10 * n + (c.toNat - 48)) else none)
      (some 0)
  let go : List Char → Int → Option Int := fun cs sign =>
    match cs with
    | [] => none
    | _ => (digits cs).map (fun n => sign * (n : Int))
  match s.data with
  | [] => none
  | c :: rest =>
    if c = '-' then go rest (-1)
    else if c = '+' then go rest 1
    else go (c :: rest) 1

/-- Pulling one token from the modelled token stream: the lexer yields
`Eof` tokens forever once the input is exhausted. -/
def nextFromStream : List Token → Token × List Token
  | [] => (eofToken, [])
  | t :: ts => (t, ts)

/-- `parser::Parser`: the remaining token stream stands in for the
`&mut Lexer`, plus `cur_token`, `peek_token` and the diagnostic list. -/
structure Parser where
  stream : List Token
  cur : Token
  peek : Token
  errors : List String
  deriving DecidableEq, Repr

/-- `parser::new`: pull the first two tokens into `cur`/`peek`. -/
def Parser.new (toks : List Token) : Parser :=
  let (first_token, s1) := nextFromStream toks
  let (second_token, s2) := nextFromStream s1
  { stream := s2, cur := first_token, peek := second_token, errors := [] }

/-- `Parser::next_token`. -/
def Parser.next_token (p : Parser) : Parser :=
  let (t, s) := nextFromStream p.stream
  { p with cur := p.peek, peek := t, stream := s }

/-- `Parser::cur_token_is`. -/
def Parser.cur_token_is (p : Parser) (t : TokType) : Bool := p.cur.t = t

/-- `Parser::peek_token_is`. -/
def Parser.peek_token_is (p : Parser) (t : TokType) : Bool := p.peek.t = t

/-- `Parser::cur_precedence`. -/
def Parser.cur_precedence (p : Parser) : Precedence := to_precedence p.cur.t

/-- `Parser::peek_precedence`. -/
def Parser.peek_precedence (p : Parser) : Precedence := to_precedence p.peek.t

/-- `Parser::peek_error`: push the diagnostic
`expected peek token: X, but got: Y` (Rust `{:?}` prints the variant
names). -/
def Parser.peek_error (p : Parser) (t : TokType) : Parser :=
  { p with errors := p.errors ++
      ["expected peek token: " ++ t.debugStr ++ ", but got: " ++ p.peek.t.debugStr] }

/-- `Parser::expect_peek`: advance on a match, otherwise record a
diagnostic and stay put. -/
def Parser.expect_peek (p : Parser) (t : TokType) : Bool × Parser :=
  if p.peek_token_is t then (true, p.next_token)
  else (false, p.peek_error t)

/-- `Parser::parse_ident` (reads `cur_token` only, does not advance). -/
def parse_ident (p : Parser) : Ident := { token := p.cur, val := p.cur.literal }

/-- `Parser::parse_int`: `cur_token.literal.parse().unwrap()` — the
`unwrap` makes a non-integer literal a host panic. -/
def parse_int (p : Parser) : Except PErr Expr :=
  match parse_isize p.cur.literal with
  | some n => .ok (.int p.cur n)
  | none => throw .panicked

/-- `Parser::parse_boolean`. -/
def parse_boolean (p : Parser) : Expr :=
  .boolean p.cur (p.cur.literal == "true")

mutual

/-- `Parser::parse_stmt`: dispatch on the current token kind. -/
def parse_stmt (fuel : Nat) (st : Parser) : Except PErr (Stmt × Parser) :=
  match fuel with
  | 0 => throw .fuelOut
  | fuel + 1 =>
    match st.cur.t with
    | .letT => parse_let_stmt fuel st
    | .returnT => parse_return_stmt fuel st
    | _ => parse_expr_stmt fuel st

/-- `Parser::parse_let_stmt`.  Note: the results of both `expect_peek`
calls are discarded (`let _ = ...` in the source), so the node is built
and returned even when the checks fail. -/
def parse_let_stmt (fuel : Nat) (st : Parser) : Except PErr (Stmt × Parser) :=
  match fuel with
  | 0 => throw .fuelOut
  | fuel + 1 => do
    let t := st.cur
    let (_, st) := st.expect_peek .ident
    let ident : Ident := { token := st.cur, val := st.cur.literal }
    let (_, st) := st.expect_peek .assign
    let st := st.next_token
    let (val, st) ← parse_expr fuel .lowest st
    let st := if st.peek_token_is .semicolon then st.next_token else st
    .ok (.letS t ident val, st)

/-- `Parser::parse_return_stmt`. -/
def parse_return_stmt (fuel : Nat) (st : Parser) : Except PErr (Stmt × Parser) :=
  match fuel with
  | 0 => throw .fuelOut
  | fuel + 1 => do
    let t := st.cur
    let st := st.next_token
    let (val, st) ← parse_expr fuel .lowest st
    let st := if st.peek_token_is .semicolon then st.next_token else st
    .ok (.ret t val, st)

/-- `Parser::parse_expr_stmt`. -/
def parse_expr_stmt (fuel : Nat) (st : Parser) : Except PErr (Stmt × Parser) :=
  match fuel with
  | 0 => throw .fuelOut
  | fuel + 1 => do
    let t := st.cur
    let (expr, st) ← parse_expr fuel .lowest st
    let st := if st.peek_token_is .semicolon then st.next_token else st
    .ok (.exprStmt t expr, st)

/-- `Parser::parse_block` (the `while` loop is `parse_block_loop`). -/
def parse_block (fuel : Nat) (st : Parser) : Except PErr (Block × Parser) :=
  match fuel with
  | 0 => throw .fuelOut
  | fuel + 1 =>
    let t := st.cur
    let st := st.next_token
    parse_block_loop fuel t [] st

/-- The `while !cur_token_is(Rbrace) && !cur_token_is(Eof)` loop of
`parse_block`, with the statements accumulated so far. -/
def parse_block_loop (fuel : Nat) (t : Token) (acc : List Stmt) (st : Parser) :
    Except PErr (Block × Parser) :=
  match fuel with
  | 0 => throw .fuelOut
  | fuel + 1 =>
    if st.cur_token_is .rbrace || st.cur_token_is .eof then .ok (.mk t acc, st)
    else do
      let (stmt, st) ← parse_stmt fuel st
      let st := st.next_token
      parse_block_loop fuel t (acc ++ [stmt]) st

/-- `Parser::parse_expr`: prefix rule for the current token, then the
operator-consuming loop (`parse_expr_loop`). -/
def parse_expr (fuel : Nat) (prec : Precedence) (st : Parser) : Except PErr (Expr × Parser) :=
  match fuel with
  | 0 => throw .fuelOut
  | fuel + 1 => do
    let (lhs, st) ← prefix_parse fuel st.cur.t st
    parse_expr_loop fuel prec lhs st

/-- The `while !peek_token_is(Semicolon) && prec < peek_precedence`
loop of `parse_expr`: consume an infix/call operator and continue, or
return `lhs`. -/
def parse_expr_loop (fuel : Nat) (prec : Precedence) (lhs : Expr) (st : Parser) :
    Except PErr (Expr × Parser) :=
  match fuel with
  | 0 => throw .fuelOut
  | fuel + 1 =>
    if st.peek_token_is .semicolon then .ok (lhs, st)
    else if precLt prec st.peek_precedence = false then .ok (lhs, st)
    else
      match st.peek.t with
      | .plus | .minus | .slash | .asterisk | .equ | .neq | .lt | .gt => do
        let st := st.next_token
        let (e, st) ← parse_infix_op fuel lhs st
        parse_expr_loop fuel prec e st
      | .lparen => do
        let st := st.next_token
        let (e, st) ← parse_call fuel lhs st
        parse_expr_loop fuel prec e st
      | _ => .ok (lhs, st)

/-- `Parser::prefix_parse`: the prefix rule chosen by token kind; any
kind without a rule falls through to `parse_int` (the source default
arm). -/
def prefix_parse (fuel : Nat) (t : TokType) (st : Parser) : Except PErr (Expr × Parser) :=
  match fuel with
  | 0 => throw .fuelOut
  | fuel + 1 =>
    match t with
    | .ident => .ok (.ident (parse_ident st), st)
    | .lparen => parse_grouped_expr fuel st
    | .ifT => parse_if fuel st
    | .function => parse_func fuel st
    | .minus | .bang => parse_prefix_op fuel st
    | .trueT | .falseT => .ok (parse_boolean st, st)
    | _ => do
      let e ← parse_int st
      .ok (e, st)

/-- `Parser::parse_if`. -/
def parse_if (fuel : Nat) (st : Parser) : Except PErr (Expr × Parser) :=
  match fuel with
  | 0 => throw .fuelOut
  | fuel + 1 => do
    let t := st.cur
    let (_, st) := st.expect_peek .lparen
    let st := st.next_token
    let (cond, st) ← parse_expr fuel .lowest st
    let (_, st) := st.expect_peek .rparen
    let (_, st) := st.expect_peek .lbrace
    let (cons, st) ← parse_block fuel st
    if st.peek_token_is .elseT then do
      let st := st.next_token
      let (_, st) := st.expect_peek .lbrace
      let (alt, st) ← parse_block fuel st
      .ok (.ifE t cond cons (some alt), st)
    else
      .ok (.ifE t cond cons none, st)

/-- `Parser::parse_func`. -/
def parse_func (fuel : Nat) (st : Parser) : Except PErr (Expr × Parser) :=
  match fuel with
  | 0 => throw .fuelOut
  | fuel + 1 => do
    let t := st.cur
    let (_, st) := st.expect_peek .lparen
    let (params, st) ← parse_func_params fuel st
    let (_, st) := st.expect_peek .lbrace
    let (body, st) ← parse_block fuel st
    .ok (.func t params body, st)

/-- `Parser::parse_func_params` (the `while` loop is
`parse_func_params_loop`). -/
def parse_func_params (fuel : Nat) (st : Parser) : Except PErr (List Ident × Parser) :=
  match fuel with
  | 0 => throw .fuelOut
  | fuel + 1 => parse_func_params_loop fuel [] st.next_token

/-- The `while !cur_token_is(Rparen)` loop of `parse_func_params`.
As in the source, there is no `Eof` guard: at end of input the loop
spins (here: runs out of fuel). -/
def parse_func_params_loop (fuel : Nat) (acc : List Ident) (st : Parser) :
    Except PErr (List Ident × Parser) :=
  match fuel with
  | 0 => throw .fuelOut
  | fuel + 1 =>
    if st.cur_token_is .rparen then .ok (acc, st)
    else
      let param := parse_ident st
      let st := st.next_token
      let st := if st.cur_token_is .comma then st.next_token else st
      parse_func_params_loop fuel (acc ++ [param]) st

/-- `Parser::parse_grouped_expr`. -/
def parse_grouped_expr (fuel : Nat) (st : Parser) : Except PErr (Expr × Parser) :=
  match fuel with
  | 0 => throw .fuelOut
  | fuel + 1 => do
    let st := st.next_token
    let (e, st) ← parse_expr fuel .lowest st
    let (_, st) := st.expect_peek .rparen
    .ok (e, st)

/-- `Parser::parse_call`. -/
def parse_call (fuel : Nat) (fn : Expr) (st : Parser) : Except PErr (Expr × Parser) :=
  match fuel with
  | 0 => throw .fuelOut
  | fuel + 1 => do
    let t := st.cur
    let (args, st) ← parse_call_args fuel st
    .ok (.call t fn args, st)

/-- `Parser::parse_call_args` (the `while` loop is
`parse_call_args_loop`). -/
def parse_call_args (fuel : Nat) (st : Parser) : Except PErr (List Expr × Parser) :=
  match fuel with
  | 0 => throw .fuelOut
  | fuel + 1 => parse_call_args_loop fuel [] st.next_token

/-- The `while !cur_token_is(Rparen)` loop of `parse_call_args`. -/
def parse_call_args_loop (fuel : Nat) (acc : List Expr) (st : Parser) :
    Except PErr (List Expr × Parser) :=
  match fuel with
  | 0 => throw .fuelOut
  | fuel + 1 =>
    if st.cur_token_is .rparen then .ok (acc, st)
    else do
      let (arg, st) ← parse_expr fuel .lowest st
      let st := st.next_token
      let st := if st.cur_token_is .comma then st.next_token else st
      parse_call_args_loop fuel (acc ++ [arg]) st

/-- `Parser::parse_prefix` (named with an `_op` suffix here). -/
def parse_prefix_op (fuel : Nat) (st : Parser) : Except PErr (Expr × Parser) :=
  match fuel with
  | 0 => throw .fuelOut
  | fuel + 1 => do
    let t := st.cur
    let op := st.cur.literal
    let st := st.next_token
    let (rhs, st) ← parse_expr fuel .pref st
    .ok (.pre t op rhs, st)

/-- `Parser::parse_infix` (named with an `_op` suffix here): the
right-hand side is parsed at the operator's own precedence. -/
def parse_infix_op (fuel : Nat) (lhs : Expr) (st : Parser) : Except PErr (Expr × Parser) :=
  match fuel with
  | 0 => throw .fuelOut
  | fuel + 1 => do
    let t := st.cur
    let op := st.cur.literal
    let prec := st.cur_precedence
    let st := st.next_token
    let (rhs, st) ← parse_expr fuel prec st
    .ok (.inf t lhs op rhs, st)

end

/-- The `while cur_token != Eof` loop of `parse_program`, with the
statements accumulated so far (every parsed statement is pushed). -/
def parse_program_loop (fuel : Nat) (acc : List Stmt) (st : Parser) :
    Except PErr (Program × Parser) :=
  match fuel with
  | 0 => throw .fuelOut
  | fuel + 1 =>
    if st.cur_token_is .eof then .ok ({ stmts := acc }, st)
    else do
      let (stmt, st) ← parse_stmt fuel st
      let st := st.next_token
      parse_program_loop fuel (acc ++ [stmt]) st

/-- `Parser::parse_program`. -/
def parse_program (fuel : Nat) (st : Parser) : Except PErr (Program × Parser) :=
  parse_program_loop fuel [] st

/-- `object::Object`: the runtime values.  `ret` is `object::Return`
(the boxed control-flow carrier), `func` is `object::Func` with its
captured environment (`env::Env` is a map from names to objects,
modelled as an association list, newest binding first). -/
inductive Object where
  | int (val : Int)
  | bool (val : Bool)
  | null
  | ret (val : Object)
  | func (params : List Ident) (body : Block) (env : List (String × Object))

/-- `env::Env`, extensionally: the `HashMap<String, Object>` behaves as
an association list looked up from the most recent insertion. -/
abbrev Env := List (String × Object)

/-- `env::new`: the empty environment. -/
def envNew : Env := []

/-- `Env::get` (`HashMap::get`): the most recent binding of the name,
if any.  There is no parent environment to consult: `env::Env` has a
single flat frame. -/
def Env.get : Env → String → Option Object
  | [], _ => none
  | (k, v) :: rest, name => if k = name then some v else Env.get rest name

/-- `Env::set` (`HashMap::insert`): bind the name in the (only)
frame; the new binding shadows any older one at lookup. -/
def Env.set (e : Env) (name : String) (obj : Object) : Env :=
  (name, obj) :: e

/-- `eval::eval_prefix_bang` (the `_env` parameter is unused, as in the
source). -/
def eval_prefix_bang (rhs : Object) (_env : Env) : Object :=
  match rhs with
  | .bool b => .bool !b
  | .null => .bool true
  | _ => .bool false

/-- `eval::eval_prefix_minus`. -/
def eval_prefix_minus (rhs : Object) (_env : Env) : Object :=
  match rhs with
  | .int i => .int (-i)
  | _ => .null

/-- `eval::is_truthy`: `Null` is falsy, a boolean is itself, everything
else (integers included) is truthy. -/
def is_truthy (obj : Object) : Bool :=
  match obj with
  | .null => false
  | .bool b => b
  | _ => true

/-- The operand reduction of `eval::eval_infix_expr`: an `Int` passes
through, a `Bool` is coerced by `b.val as isize` (1/0), and any other
object makes `eval_infix_expr` return `Null` (`none` here selects that
early return). -/
def objToIsize : Object → Option Int
  | .int n => some n
  | .bool b => some (if b then 1 else 0)
  | _ => none

mutual

/-- `eval::eval_program`: run the statements in order; a `Return`
result stops the loop and is unwrapped (`return *(r.val)`) exactly
here; otherwise the last statement's value (initially `Null`) is the
result. -/
def eval_program (fuel : Nat) (stmts : List Stmt) (env : Env) : Except PErr (Object × Env) :=
  match fuel with
  | 0 => throw .fuelOut
  | fuel + 1 =>
    match stmts with
    | [] => .ok (.null, env)
    | s :: rest => do
      let (result, env) ← eval_stmt fuel s env
      match result, rest with
      | .ret r, _ => .ok (r, env)
      | _, [] => .ok (result, env)
      | _, _ => eval_program fuel rest env

/-- `eval::eval_block`: as `eval_program`, but a `Return` result is
propagated still wrapped (`Object::Return(r)`), not unwrapped. -/
def eval_block (fuel : Nat) (stmts : List Stmt) (env : Env) : Except PErr (Object × Env) :=
  match fuel with
  | 0 => throw .fuelOut
  | fuel + 1 =>
    match stmts with
    | [] => .ok (.null, env)
    | s :: rest => do
      let (result, env) ← eval_stmt fuel s env
      match result, rest with
      | .ret r, _ => .ok (.ret r, env)
      | _, [] => .ok (result, env)
      | _, _ => eval_block fuel rest env

/-- `eval::eval_stmt`. -/
def eval_stmt (fuel : Nat) (stmt : Stmt) (env : Env) : Except PErr (Object × Env) :=
  match fuel with
  | 0 => throw .fuelOut
  | fuel + 1 =>
    match stmt with
    | .exprStmt _ e => eval_expr fuel e env
    | .block b => eval_block fuel b.stmts env
    | .ret _ r => do
      let (v, env) ← eval_expr fuel r env
      .ok (.ret v, env)
    | .letS _ name l => do
      let (val, env) ← eval_expr fuel l env
      .ok (val, Env.set env name.val val)

/-- `eval::eval_expr`.  The source match covers `Int`, `Bool`,
`Prefix`, `Infix`, `If`, `Ident` and ends with
`_ => panic!("Unsupported expression")`; the wildcard catches exactly
the `Func` and `Call` variants, so both are the host panic. -/
def eval_expr (fuel : Nat) (expr : Expr) (env : Env) : Except PErr (Object × Env) :=
  match fuel with
  | 0 => throw .fuelOut
  | fuel + 1 =>
    match expr with
    | .int _ n => .ok (.int n, env)
    | .boolean _ b => .ok (.bool b, env)
    | .pre _ op rhs => eval_prefix_expr fuel op rhs env
    | .inf _ lhs op rhs => eval_infix_expr fuel lhs op rhs env
    | .ifE _ cond cons alt => eval_if_expr fuel cond cons alt env
    | .ident i =>
      match Env.get env i.val with
      | some v => .ok (v, env)
      | none => .ok (.null, env)
    | .func _ _ _ => throw .panicked
    | .call _ _ _ => throw .panicked

/-- `eval::eval_prefix_expr`: evaluate the operand, then dispatch on
the operator string; an unrecognized operator yields `Null`. -/
def eval_prefix_expr (fuel : Nat) (op : String) (rhsE : Expr) (env : Env) :
    Except PErr (Object × Env) :=
  match fuel with
  | 0 => throw .fuelOut
  | fuel + 1 => do
    let (rhs, env) ← eval_expr fuel rhsE env
    match op with
    | "!" => .ok (eval_prefix_bang rhs env, env)
    | "-" => .ok (eval_prefix_minus rhs env, env)
    | _ => .ok (.null, env)

/-- `eval::eval_infix_expr`: evaluate both operands, reduce each to a
machine integer (`objToIsize`; a non-`Int`/`Bool` operand makes the
whole expression `Null`), then dispatch on the operator string; an
unrecognized operator yields `Null`.  Rust `lval / rval` panics when
`rval == 0`, which is the `.panicked` case. -/
def eval_infix_expr (fuel : Nat) (lhsE : Expr) (op : String) (rhsE : Expr) (env : Env) :
    Except PErr (Object × Env) :=
  match fuel with
  | 0 => throw .fuelOut
  | fuel + 1 => do
    let (lhs, env) ← eval_expr fuel lhsE env
    let (rhs, env) ← eval_expr fuel rhsE env
    match objToIsize lhs with
    | none => .ok (.null, env)
    | some lval =>
      match objToIsize rhs with
      | none => .ok (.null, env)
      | some rval =>
        match op with
        | "+" => .ok (.int (lval + rval), env)
        | "-" => .ok (.int (lval - rval), env)
        | "*" => .ok (.int (lval * rval), env)
        | "/" =>
          if rval = 0 then throw .panicked
          else .ok (.int (Int.tdiv lval rval), env)
        | "<" => .ok (.bool (decide (lval < rval)), env)
        | ">" => .ok (.bool (decide (rval < lval)), env)
        | "==" => .ok (.bool (decide (lval = rval)), env)
        | "!=" => .ok (.bool (decide (lval ≠ rval)), env)
        | _ => .ok (.null, env)

/-- `eval::eval_if_expr`: evaluate the condition, test `is_truthy`,
then evaluate the consequence block (wrapped as a `Stmt::Block`, as in
the source), the alternative block if present, else `Null`. -/
def eval_if_expr (fuel : Nat) (cond : Expr) (cons : Block) (alt : Option Block) (env : Env) :
    Except PErr (Object × Env) :=
  match fuel with
  | 0 => throw .fuelOut
  | fuel + 1 => do
    let (c, env) ← eval_expr fuel cond env
    if is_truthy c then
      eval_stmt fuel (Stmt.block cons) env
    else
      match alt with
      | some a => eval_stmt fuel (Stmt.block a) env
      | none => .ok (.null, env)

end

/-- The whole pipeline as driven in the tests (`test_eval`): parse the
token stream, then evaluate the program's statements in a fresh
environment; only the resulting object is kept. -/
def interpret (fuel : Nat) (toks : List Token) : Except PErr Object := do
  let (prog, _) ← parse_program fuel (Parser.new toks)
  let (obj, _) ← eval_program fuel prog.stmts envNew
  .ok obj

mutual

/-- `fmt::Display for ast::Expr` (and the per-variant impls):
`Prefix` renders as `(op rhs)` without a space, `Infix` as
`(lhs op rhs)` with spaces, `Call` as `fn(arg, arg, ...)`; an `If`
renders `if cond cons` with the alternative appended bare; a `Func`
renders its parameters without separators (as the source loop does). -/
def render_expr : Expr → String
  | .ident i => i.val
  | .int _ n => toString n
  | .pre _ op rhs => "(" ++ op ++ render_expr rhs ++ ")"
  | .inf _ lhs op rhs =>
    "(" ++ render_expr lhs ++ " " ++ op ++ " " ++ render_expr rhs ++ ")"
  | .boolean _ b => toString b
  | .ifE _ cond cons alt =>
    "if " ++ render_expr cond ++ " " ++ render_block cons ++
      (match alt with
       | some a => render_block a
       | none => "")
  | .func _ params body =>
    "fn" ++ "(" ++ render_params params ++ ")" ++ render_block body
  | .call _ fn args => render_expr fn ++ "(" ++ render_args args ++ ")"

/-- Parameter rendering of `Display for ast::Func`: concatenation with
no separator (the source loop writes each parameter bare). -/
def render_params : List Ident → String
  | [] => ""
  | p :: rest => p.val ++ render_params rest

/-- Argument rendering of `Display for ast::Call`: `", "` after every
argument but the last. -/
def render_args : List Expr → String
  | [] => ""
  | [a] => render_expr a
  | a :: rest => render_expr a ++ ", " ++ render_args rest

/-- `fmt::Display for ast::Stmt` and the statement structs. -/
def render_stmt : Stmt → String
  | .letS _ name val => "let " ++ name.val ++ " = " ++ render_expr val ++ ";"
  | .ret _ val => "return " ++ render_expr val ++ ";"
  | .exprStmt _ e => render_expr e
  | .block b => render_block b

/-- `fmt::Display for ast::Block`: the statements in order. -/
def render_block : Block → String
  | .mk _ stmts => render_stmts stmts

/-- The statement loop of block/program display. -/
def render_stmts : List Stmt → String
  | [] => ""
  | s :: rest => render_stmt s ++ render_stmts rest

end

/-- Lexer token values (`new_token` outputs), used to spell the example
programs' token streams. -/
def tLet : Token := { t := .letT, literal := "let" }

/-- Identifier token, as the lexer produces for a name. -/
def tIdent (s : String) : Token := { t := .ident, literal := s }

/-- Integer-literal token (the literal is the digit string). -/
def tInt (s : String) : Token := { t := .int, literal := s }

/-- The `=` token. -/
def tAssign : Token := { t := .assign, literal := "=" }

/-- The `;` token. -/
def tSemi : Token := { t := .semicolon, literal := ";" }

/-- The `+` token. -/
def tPlus : Token := { t := .plus, literal := "+" }

/-- The `-` token. -/
def tMinus : Token := { t := .minus, literal := "-" }

/-- The `*` token. -/
def tAsterisk : Token := { t := .asterisk, literal := "*" }

/-- The `/` token. -/
def tSlash : Token := { t := .slash, literal := "/" }

/-- The `<` token. -/
def tLt : Token := { t := .lt, literal := "<" }

/-- The `>` token. -/
def tGt : Token := { t := .gt, literal := ">" }

/-- The `==` token. -/
def tEqu : Token := { t := .equ, literal := "==" }

/-- The `!=` token. -/
def tNeq : Token := { t := .neq, literal := "!=" }

/-- The `!` token. -/
def tBang : Token := { t := .bang, literal := "!" }

/-- The `(` token. -/
def tLparen : Token := { t := .lparen, literal := "(" }

/-- The `)` token. -/
def tRparen : Token := { t := .rparen, literal := ")" }

/-- The opening-brace token. -/
def tLbrace : Token := { t := .lbrace, literal := "\x7b" }

/-- The closing-brace token. -/
def tRbrace : Token := { t := .rbrace, literal := "\x7d" }

/-- The `,` token. -/
def tComma : Token := { t := .comma, literal := "," }

/-- The `fn` keyword token. -/
def tFn : Token := { t := .function, literal := "fn" }

/-- The `true` keyword token. -/
def tTrue : Token := { t := .trueT, literal := "true" }

/-- The `false` keyword token. -/
def tFalse : Token := { t := .falseT, literal := "false" }

/-- The `if` keyword token. -/
def tIf : Token := { t := .ifT, literal := "if" }

/-- The `else` keyword token. -/
def tElse : Token := { t := .elseT, literal := "else" }

/-- The `return` keyword token. -/
def tReturn : Token := { t := .returnT, literal := "return" }

/-- Token stream of
`if (10 > 1) \x7b if (10 > 1) \x7b return 10; \x7d return 1; \x7d`. -/
def nestedIfToks : List Token :=
  [tIf, tLparen, tInt "10", tGt, tInt "1", tRparen, tLbrace,
     tIf, tLparen, tInt "10", tGt, tInt "1", tRparen, tLbrace,
       tReturn, tInt "10", tSemi,
     tRbrace,
     tReturn, tInt "1", tSemi,
   tRbrace]

/-- Token stream of `if (1) \x7b 10 \x7d`. -/
def if1Toks : List Token :=
  [tIf, tLparen, tInt "1", tRparen, tLbrace, tInt "10", tRbrace]

/-- Token stream of `if (1 > 2) \x7b 10 \x7d` (no else). -/
def if2Toks : List Token :=
  [tIf, tLparen, tInt "1", tGt, tInt "2", tRparen, tLbrace, tInt "10", tRbrace]

/-- Token stream of `!!5`. -/
def doubleBangToks : List Token := [tBang, tBang, tInt "5"]

/-- C6: a statement evaluating to a `ReturnSignal` stops block
evaluation immediately and the signal propagates still wrapped; at the
program boundary the same situation stops evaluation and unwraps the
carried value exactly once; and the nested-if program
`if (10 > 1) \x7b if (10 > 1) \x7b return 10; \x7d return 1; \x7d`
evaluates to `Integer 10`. -/
theorem c6_return_propagation :
    (∀ fuel s rest env r env1,
       eval_stmt fuel s env = .ok (.ret r, env1) →
       eval_block (fuel + 1) (s :: rest) env = .ok (.ret r, env1)) ∧
    (∀ fuel s rest env r env1,
       eval_stmt fuel s env = .ok (.ret r, env1) →
       eval_program (fuel + 1) (s :: rest) env = .ok (r, env1)) ∧
    interpret 200 nestedIfToks = .ok (.int 10) := by
  refine ⟨?_, ?_, by rfl⟩
  · intro fuel s rest env r env1 h
    simp [eval_block, h, Bind.bind, Except.bind]
  · intro fuel s rest env r env1 h
    simp [eval_program, h, Bind.bind, Except.bind]

/-- C6 witness: the block `return 10;` stops with the wrapped signal. -/
theorem c6_return_propagation_witness :
    eval_block 3 [Stmt.ret tReturn (Expr.int (tInt "10") 10)] [] =
      .ok (.ret (.int 10), []) :=
  c6_return_propagation.1 2 _ [] [] (.int 10) [] (by rfl)

/-- C8: an if-condition is mapped to a boolean by truthiness (`Null`
falsy, `Boolean b` is `b`, every other value — integers including 0,
returns, functions — truthy); on true the consequence block runs, on
false the alternative if present, else the result is `Null`; and
`if (1) \x7b 10 \x7d` yields `10` while `if (1 > 2) \x7b 10 \x7d`
yields `Null`. -/
theorem c8_if_truthiness :
    is_truthy .null = false ∧
    (∀ b, is_truthy (.bool b) = b) ∧
    (∀ n : Int, is_truthy (.int n) = true) ∧
    (∀ o, is_truthy (.ret o) = true) ∧
    (∀ p b e, is_truthy (.func p b e) = true) ∧
    (∀ fuel cond cons alt env v env1,
       eval_expr fuel cond env = .ok (v, env1) →
       eval_if_expr (fuel + 1) cond cons alt env =
         if is_truthy v then eval_stmt fuel (Stmt.block cons) env1
         else
           match alt with
           | some a => eval_stmt fuel (Stmt.block a) env1
           | none => .ok (.null, env1)) ∧
    interpret 100 if1Toks = .ok (.int 10) ∧
    interpret 100 if2Toks = .ok .null := by
  refine ⟨rfl, fun b => rfl, fun n => rfl, fun o => rfl, fun p b e => rfl,
    ?_, by rfl, by rfl⟩
  intro fuel cond cons alt env v env1 h
  simp [eval_if_expr, h, Bind.bind, Except.bind]

/-- C8 witness: with the already-evaluated condition `1` (truthy), the
if-expression runs its consequence block. -/
theorem c8_if_truthiness_witness :
    eval_if_expr 2 (Expr.int (tInt "1") 1) (Block.mk tLbrace [Stmt.exprStmt (tInt "10") (Expr.int (tInt "10") 10)]) none [] =
      eval_stmt 1 (Stmt.block (Block.mk tLbrace [Stmt.exprStmt (tInt "10") (Expr.int (tInt "10") 10)])) [] := by
  have h := c8_if_truthiness.2.2.2.2.2.1 1 (Expr.int (tInt "1") 1)
    (Block.mk tLbrace [Stmt.exprStmt (tInt "10") (Expr.int (tInt "10") 10)]) none [] (.int 1) [] (by rfl)
  simpa [is_truthy] using h

/-- C10: applying the prefix-bang rule twice to any runtime value is
exactly the boolean of `is_truthy` of that value, agreeing with the
truthiness predicate of if-conditions; in particular `!!5` evaluates
to `Boolean true`. -/
theorem c10_double_bang :
    (∀ (v : Object) (env : Env),
       eval_prefix_bang (eval_prefix_bang v env) env = .bool (is_truthy v)) ∧
    interpret 100 doubleBangToks = .ok (.bool true) := by
  refine ⟨?_, by rfl⟩
  intro v env
  cases v <;> simp [eval_prefix_bang, is_truthy]

/-- Token stream of `a + add(b * c) + d`. -/
def precedenceToks : List Token :=
  [tIdent "a", tPlus, tIdent "add", tLparen, tIdent "b", tAsterisk, tIdent "c",
   tRparen, tPlus, tIdent "d"]

/-- Token stream of `-5 + 4`. -/
def negAddToks : List Token := [tMinus, tInt "5", tPlus, tInt "4"]

/-- C7: the binding powers are exactly
`Lowest < Equals(==,!=) < LessGreater(<,>) < Sum(+,-) < Product(*,/)
< Prefix < Call`; the expression loop returns its left-hand side as
soon as the next operator's precedence does not exceed the threshold
of the current recursive call (or a semicolon is next); and
`a + add(b * c) + d` renders back as `((a + add((b * c))) + d)` while
`-5 + 4` renders as `((-5) + 4)`. -/
theorem c7_precedence_order :
    (precLt .lowest .equals = true ∧ precLt .equals .lt = true ∧
     precLt .lt .add = true ∧ precLt .add .mul = true ∧
     precLt .mul .pref = true ∧ precLt .pref .call = true) ∧
    (to_precedence .equ = .equals ∧ to_precedence .neq = .equals ∧
     to_precedence .lt = .lt ∧ to_precedence .gt = .lt ∧
     to_precedence .plus = .add ∧ to_precedence .minus = .add ∧
     to_precedence .asterisk = .mul ∧ to_precedence .slash = .mul ∧
     to_precedence .lparen = .call) ∧
    (∀ fuel prec lhs st,
       st.peek_token_is .semicolon = true ∨ precLt prec st.peek_precedence = false →
       parse_expr_loop (fuel + 1) prec lhs st = .ok (lhs, st)) ∧
    Except.map (fun pr => (render_stmts pr.1.stmts, pr.2.errors))
        (parse_program 100 (Parser.new precedenceToks)) =
      .ok ("((a + add((b * c))) + d)", ([] : List String)) ∧
    Except.map (fun pr => (render_stmts pr.1.stmts, pr.2.errors))
        (parse_program 100 (Parser.new negAddToks)) =
      .ok ("((-5) + 4)", ([] : List String)) := by
  refine ⟨by refine ⟨rfl, rfl, rfl, rfl, rfl, rfl⟩,
    by refine ⟨rfl, rfl, rfl, rfl, rfl, rfl, rfl, rfl, rfl⟩, ?_, by rfl, by rfl⟩
  intro fuel prec lhs st h
  rcases h with h | h
  · simp [parse_expr_loop, h]
  · simp [parse_expr_loop, h]

/-- C7 witness: with a semicolon next, the loop returns its left-hand
side unchanged. -/
theorem c7_precedence_order_witness :
    parse_expr_loop 1 .lowest (Expr.int (tInt "1") 1) (Parser.new [tInt "1", tSemi]) =
      .ok (Expr.int (tInt "1") 1, Parser.new [tInt "1", tSemi]) :=
  c7_precedence_order.2.2.1 0 .lowest _ _ (Or.inl (by rfl))

/-- Token stream of `true + true`. -/
def boolAddToks : List Token := [tTrue, tPlus, tTrue]

/-- C9: evaluation never raises for an unrecognized prefix operator, an
unresolved identifier, an unrecognized infix operator, or an infix
operand that is neither `Integer` nor `Boolean` — each such case is the
`Null` value — and a `Boolean` operand of a recognized infix operator
is coerced to 1/0 (so `true + true` is `Integer 2`). -/
theorem c9_degrade_to_null :
    (∀ fuel op rhsE env v env1, op ≠ "!" → op ≠ "-" →
       eval_expr fuel rhsE env = .ok (v, env1) →
       eval_prefix_expr (fuel + 1) op rhsE env = .ok (.null, env1)) ∧
    (∀ fuel (i : Ident) env, Env.get env i.val = none →
       eval_expr (fuel + 1) (.ident i) env = .ok (.null, env)) ∧
    (∀ fuel lhsE op rhsE env l env1 r env2,
       eval_expr fuel lhsE env = .ok (l, env1) →
       eval_expr fuel rhsE env1 = .ok (r, env2) →
       objToIsize l = none →
       eval_infix_expr (fuel + 1) lhsE op rhsE env = .ok (.null, env2)) ∧
    (∀ fuel lhsE op rhsE env l env1 r env2 lv,
       eval_expr fuel lhsE env = .ok (l, env1) →
       eval_expr fuel rhsE env1 = .ok (r, env2) →
       objToIsize l = some lv →
       objToIsize r = none →
       eval_infix_expr (fuel + 1) lhsE op rhsE env = .ok (.null, env2)) ∧
    (∀ fuel lhsE op rhsE env l env1 r env2,
       eval_expr fuel lhsE env = .ok (l, env1) →
       eval_expr fuel rhsE env1 = .ok (r, env2) →
       op ∉ (["+", "-", "*", "/", "<", ">", "==", "!="] : List String) →
       eval_infix_expr (fuel + 1) lhsE op rhsE env = .ok (.null, env2)) ∧
    (∀ b, objToIsize (.bool b) = some (if b then 1 else 0)) ∧
    interpret 100 boolAddToks = .ok (.int 2) := by
  refine ⟨?_, ?_, ?_, ?_, ?_, fun b => rfl, by rfl⟩
  · intro fuel op rhsE env v env1 h1 h2 h
    simp only [eval_prefix_expr, h, Bind.bind, Except.bind]
  · intro fuel i env h
    simp [eval_expr, h]
  · intro fuel lhsE op rhsE env l env1 r env2 hl hr hnum
    simp [eval_infix_expr, hl, hr, hnum, Bind.bind, Except.bind]
  · intro fuel lhsE op rhsE env l env1 r env2 lv hl hr hlv hnum
    simp [eval_infix_expr, hl, hr, hlv, hnum, Bind.bind, Except.bind]
  · intro fuel lhsE op rhsE env l env1 r env2 hl hr hop
    simp only [List.mem_cons, List.mem_singleton, not_or] at hop
    obtain ⟨h1, h2, h3, h4, h5, h6, h7, h8, -⟩ := hop
    simp only [eval_infix_expr, hl, hr, Bind.bind, Except.bind]
    cases hL : objToIsize l with
    | none => rfl
    | some lval =>
      cases hR : objToIsize r with
      | none => rfl
      | some rval => rfl

/-- C9 witness: the unrecognized prefix operator `~` on the evaluated
operand `5` yields `Null`; instantiated through the general theorem. -/
theorem c9_degrade_to_null_witness :
    eval_prefix_expr 2 "~" (Expr.int (tInt "5") 5) [] = .ok (.null, []) :=
  c9_degrade_to_null.1 1 "~" (Expr.int (tInt "5") 5) [] (.int 5) []
    (by decide) (by decide) (by rfl)

/-- Token stream of
`let newAdder = fn(x) \x7b fn(y) \x7b x + y; \x7d; \x7d;
let addTwo = newAdder(2); addTwo(3);`. -/
def closureToks : List Token :=
  [tLet, tIdent "newAdder", tAssign, tFn, tLparen, tIdent "x", tRparen, tLbrace,
     tFn, tLparen, tIdent "y", tRparen, tLbrace,
       tIdent "x", tPlus, tIdent "y", tSemi,
     tRbrace, tSemi,
   tRbrace, tSemi,
   tLet, tIdent "addTwo", tAssign, tIdent "newAdder", tLparen, tInt "2", tRparen, tSemi,
   tIdent "addTwo", tLparen, tInt "3", tRparen, tSemi]

/-- C1 counterexample: the closure program does not evaluate to
`Integer 5`; its very first statement evaluates a function literal,
which falls into the evaluator's catch-all
`panic!("Unsupported expression")`, so the whole run is a host panic. -/
theorem c1_closure_counterexample :
    interpret 200 closureToks = .error .panicked := by rfl

/-- C1 amended: call expressions (and the function literals they would
need) are unsupported by the evaluator — evaluating either variant
invokes the host panic, so no argument evaluation, environment
construction, parameter binding, body evaluation or return unwrapping
ever happens. -/
theorem c1_call_unsupported :
    (∀ fuel tok params body env,
       eval_expr (fuel + 1) (.func tok params body) env = .error .panicked) ∧
    (∀ fuel tok fn args env,
       eval_expr (fuel + 1) (.call tok fn args) env = .error .panicked) :=
  ⟨fun _ _ _ _ _ => rfl, fun _ _ _ _ _ => rfl⟩

/-- Token stream of `let x = 5; let f = fn() \x7b x \x7d; f();` — the
program that would exercise a parent-chain lookup (`x` free in the
function body, bound in the enclosing scope). -/
def envChainToks : List Token :=
  [tLet, tIdent "x", tAssign, tInt "5", tSemi,
   tLet, tIdent "f", tAssign, tFn, tLparen, tRparen, tLbrace, tIdent "x", tRbrace, tSemi,
   tIdent "f", tLparen, tRparen, tSemi]

/-- C2 counterexample: under the claimed local → parent → global
resolution, this program's call frame would miss `x` locally and
resolve it from the enclosing frame, yielding `5`; instead the code
panics at the function literal, because `env::Env` has no parent link
and the only construct that would ever create a second, parent-linked
frame (a function call) is unsupported. -/
theorem c2_env_chain_counterexample :
    interpret 200 envChainToks = .error .panicked := by rfl

/-- C2 amended: the environment is a single flat frame with no parent:
`set` writes the binding into that frame (whose lookup then finds it,
leaving other names untouched), a lookup that misses the frame finds
nothing anywhere, and such an unresolved identifier evaluates to
`Null`. -/
theorem c2_env_flat :
    (∀ e n v, Env.get (Env.set e n v) n = some v) ∧
    (∀ e n m v, m ≠ n → Env.get (Env.set e n v) m = Env.get e m) ∧
    (∀ n, Env.get envNew n = none) ∧
    (∀ fuel (i : Ident) env, Env.get env i.val = none →
       eval_expr (fuel + 1) (.ident i) env = .ok (.null, env)) := by
  refine ⟨?_, ?_, fun n => rfl, ?_⟩
  · intro e n v
    simp [Env.get, Env.set]
  · intro e n m v h
    simp [Env.get, Env.set, Ne.symm h]
  · intro fuel i env h
    simp [eval_expr, h]

/-- C2 witness: setting `x` leaves the lookup of `y` unchanged. -/
theorem c2_env_flat_witness :
    Env.get (Env.set envNew "x" (.int 5)) "y" = Env.get envNew "y" :=
  c2_env_flat.2.1 envNew "x" "y" (.int 5) (by decide)

/-- C3 counterexample: `1 / 0` and `5 / false` (the divisor coerced to
0) are host panics — `lval / rval` is Rust integer division, which
panics on a zero divisor — not a catchable error value and not `Null`. -/
theorem c3_div_zero_counterexample :
    interpret 100 [tInt "1", tSlash, tInt "0"] = .error .panicked ∧
    interpret 100 [tInt "5", tSlash, tFalse] = .error .panicked :=
  ⟨by rfl, by rfl⟩

/-- C3 amended: whenever both operands of `/` reduce to machine
integers and the divisor reduces to 0 (so `Integer 0` or
`Boolean false`), evaluation is the host panic — no catchable error
result exists in this evaluator, and the result is not `Null`. -/
theorem c3_div_zero_panics :
    ∀ fuel lhsE rhsE env l env1 r env2 lv,
      eval_expr fuel lhsE env = .ok (l, env1) →
      eval_expr fuel rhsE env1 = .ok (r, env2) →
      objToIsize l = some lv →
      objToIsize r = some 0 →
      eval_infix_expr (fuel + 1) lhsE "/" rhsE env = .error .panicked := by
  intro fuel lhsE rhsE env l env1 r env2 lv hl hr hlv hr0
  simp only [eval_infix_expr, hl, hr, hlv, hr0, Bind.bind, Except.bind]
  rfl

/-- C3 witness: the amended theorem applied to the literal division
`1 / 0` with both operands already evaluated. -/
theorem c3_div_zero_panics_witness :
    eval_infix_expr 2 (Expr.int (tInt "1") 1) "/" (Expr.int (tInt "0") 0) [] =
      .error .panicked :=
  c3_div_zero_panics 1 (Expr.int (tInt "1") 1) (Expr.int (tInt "0") 0) []
    (.int 1) [] (.int 0) [] 1 (by rfl) (by rfl) (by rfl) (by rfl)

/-- C4 counterexample: on `let 5;` both expected-token checks fail
(two diagnostics are recorded), yet the statement is not abandoned:
`parse_program` returns a Program containing one garbage `Let` node
whose name was read off the `let` keyword token itself. -/
theorem c4_partial_node_counterexample :
    parse_program 100 (Parser.new [tLet, tInt "5", tSemi]) =
      .ok ({ stmts := [Stmt.letS tLet { token := tLet, val := "let" }
                        (Expr.int (tInt "5") 5)] },
           { stream := [], cur := eofToken, peek := eofToken,
             errors := ["expected peek token: Ident, but got: Int",
                        "expected peek token: Assign, but got: Int"] }) := by rfl

/-- C4 amended: a statement that fails an expected-token check records
the diagnostic but still contributes a (partial) AST node built from
the misaligned tokens, and `parse_program` pushes it and carries on
with the following statements: `let = 5; 7;` yields one diagnostic,
a `Let` node named `let`, and the subsequent expression statement. -/
theorem c4_partial_node_amended :
    parse_program 100 (Parser.new [tLet, tAssign, tInt "5", tSemi, tInt "7", tSemi]) =
      .ok ({ stmts := [Stmt.letS tLet { token := tLet, val := "let" }
                        (Expr.int (tInt "5") 5),
                       Stmt.exprStmt (tInt "7") (Expr.int (tInt "7") 7)] },
           { stream := [], cur := eofToken, peek := eofToken,
             errors := ["expected peek token: Ident, but got: Assign"] }) := by rfl

/-- C5 counterexample: `parse_program` does not survive every token
stream without a host panic: a stray `;` (or `\x7d`) has no prefix
rule, falls into the integer-literal default, and
`literal.parse().unwrap()` panics. -/
theorem c5_parse_panic_counterexample :
    parse_program 100 (Parser.new [tSemi]) = .error .panicked ∧
    parse_program 100 (Parser.new [tRbrace]) = .error .panicked :=
  ⟨by rfl, by rfl⟩

/-- C5 amended: an expected-token failure is reported only by appending
the human-readable message to the error list (no advance, no panic),
but a current token with no prefix rule — e.g. a stray `;` or
closing brace, whose literal is not an integer — reaches the
`parse_int` fallback and its `unwrap` is the host panic. -/
theorem c5_parse_error_channels :
    (∀ (st : Parser) (t : TokType), st.peek_token_is t = false →
       st.expect_peek t =
         (false, { st with errors := st.errors ++
            ["expected peek token: " ++ t.debugStr ++ ", but got: " ++ st.peek.t.debugStr] })) ∧
    (∀ fuel (st : Parser), st.cur.t = .semicolon ∨ st.cur.t = .rbrace →
       parse_isize st.cur.literal = none →
       prefix_parse (fuel + 1) st.cur.t st = .error .panicked) := by
  constructor
  · intro st t h
    simp [Parser.expect_peek, Parser.peek_error, h]
  · intro fuel st h hp
    rcases h with h | h <;> rw [h] <;>
      simp only [prefix_parse, parse_int, hp, Bind.bind, Except.bind]

/-- C5 witness: a failed `expect_peek` for an identifier after `let`
appends exactly one diagnostic and does not advance. -/
theorem c5_parse_error_channels_witness :
    (Parser.new [tLet, tInt "5"]).expect_peek .ident =
      (false, { stream := [], cur := tLet, peek := tInt "5",
                errors := ["expected peek token: Ident, but got: Int"] }) :=
  c5_parse_error_channels.1 (Parser.new [tLet, tInt "5"]) .ident (by rfl)
